import Mathlib

/-!
Verification of the clinical-trial-archive synchronization core.

This file shallowly embeds the data model and operations of the repository
(`database.py`, `clinical_trials_backup.py`) and proves properties of the
embedded definitions.  Conventions of the embedding:

* Python dict lookups at fixed nested paths become `Option`-valued structure
  fields; a missing key is `none`.
* Python truthiness on strings (`if not s`) is modelled explicitly: `none`
  and the empty string are both falsy.
* Timestamps (`NOW()`) are a `Nat` clock supplied by the caller; each driver
  loop iteration advances the clock.
* SQL state (the `clinical_trials` table and the single-row `backup_state`
  table) is a `DBState` record; the multi-row `INSERT ... ON CONFLICT (nct_id)
  DO UPDATE` of `execute_values` is embedded as a left fold of single-row
  keyed upserts.  Generated columns (`has_results`, `overall_status`, `phase`,
  `brief_title`) are pure functions of the stored `data` payload and so are
  represented by the payload itself.
* The HTTP client (`api_client.py`, treated by the spec as a black box) is a
  function from a page token and an optional updated-since filter to either a
  response or an error (`Except`); an error models an exception escaping the
  adapter after its retries are exhausted.
* The unbounded `while True:` driver loops take a fuel parameter; running out
  of fuel is reported as a distinct `StopReason` that corresponds to no real
  exit path of the code.
-/

/-- `study.get('protocolSection', {}).get('identificationModule', {})`:
the `identificationModule` sub-dict of a raw study. -/
structure IdentificationModule where
  nctId : Option String
  deriving DecidableEq

/-- `conditionsModule` sub-dict: a JSON list of condition strings. -/
structure ConditionsModule where
  conditions : List String
  deriving DecidableEq

/-- One entry of the `interventions` JSON list; `intervention.get('name', '')`
reads its optional `name` key. -/
structure Intervention where
  name : Option String
  deriving DecidableEq

/-- `armsInterventionsModule` sub-dict. -/
structure ArmsInterventionsModule where
  interventions : List Intervention
  deriving DecidableEq

/-- `protocolSection` sub-dict of a raw study. -/
structure ProtocolSection where
  identificationModule : Option IdentificationModule
  conditionsModule : Option ConditionsModule
  armsInterventionsModule : Option ArmsInterventionsModule
  deriving DecidableEq

/-- A raw study record as received from the API (the `raw_payload`). -/
structure Study where
  protocolSection : Option ProtocolSection
  deriving DecidableEq

/-- Python truthiness for an optional string: `none` and `""` are falsy;
a truthy value is returned as `some`. -/
def truthyOpt : Option String → Option String
  | none => none
  | some s => if s = "" then none else some s

/-- The raw nested lookup
`study.get('protocolSection', {}).get('identificationModule', {}).get('nctId')`. -/
def rawNctId (study : Study) : Option String :=
  match study.protocolSection with
  | none => none
  | some ps =>
    match ps.identificationModule with
    | none => none
    | some im => im.nctId

/-- The identifier of a study after the driver's `if not nct_id` truthiness
check: `some id` exactly when the record has a valid (non-empty) identifier. -/
def truthyId (study : Study) : Option String :=
  truthyOpt (rawNctId study)

/-- The characters stripped by `text.strip('"\x27 ')`: double quote,
apostrophe, space. -/
def stripChar (c : Char) : Bool :=
  c = Char.ofNat 34 || c = Char.ofNat 39 || c = Char.ofNat 32

/-- Python `str.strip('"\x27 ')`: drop the strip-set characters from both
ends of the string. -/
def pyStrip (s : String) : String :=
  String.mk (((s.toList.dropWhile stripChar).reverse.dropWhile stripChar).reverse)

/-- The whitespace class of Python `str.split()` with no argument
(space, tab, newline, vertical tab, form feed, carriage return). -/
def pyIsSpace (c : Char) : Bool :=
  c = Char.ofNat 32 || c = Char.ofNat 9 || c = Char.ofNat 10 ||
  c = Char.ofNat 11 || c = Char.ofNat 12 || c = Char.ofNat 13

/-- Python `text.split()`: split on whitespace runs, dropping empty pieces. -/
def pySplit (s : String) : List String :=
  ((s.toList.splitOnP pyIsSpace).map String.mk).filter (fun t => t ≠ "")

/-- `ClinicalTrialsDB.clean_text` (database.py:57-66).  `none` models a
Python `None` argument; `if not text: return ''` makes both `None` and `""`
yield `""`.  Otherwise: strip surrounding quote/space characters, then
`' '.join(text.split())`. -/
def clean_text : Option String → String
  | none => ""
  | some text =>
    if text = "" then ""
    else String.intercalate " " (pySplit (pyStrip text))

/-- `ClinicalTrialsDB.extract_conditions` (database.py:68-80): walk to
`conditionsModule.conditions` (missing levels yield `[]`), keep each truthy
condition whose cleaned form is non-empty. -/
def extract_conditions (study : Study) : List String :=
  let conditions : List String :=
    match study.protocolSection with
    | none => []
    | some ps =>
      match ps.conditionsModule with
      | none => []
      | some cm => cm.conditions
  conditions.filterMap (fun condition =>
    if condition = "" then none
    else
      let cleaned := clean_text (some condition)
      if cleaned = "" then none else some cleaned)

/-- `ClinicalTrialsDB.extract_interventions` (database.py:82-95): walk to
`armsInterventionsModule.interventions`, take `intervention.get('name', '')`,
keep each truthy name whose cleaned form is non-empty. -/
def extract_interventions (study : Study) : List String :=
  let interventions : List Intervention :=
    match study.protocolSection with
    | none => []
    | some ps =>
      match ps.armsInterventionsModule with
      | none => []
      | some am => am.interventions
  interventions.filterMap (fun intervention =>
    let name := intervention.name.getD ""
    if name = "" then none
    else
      let cleaned := clean_text (some name)
      if cleaned = "" then none else some cleaned)

/-- One stored row of the `clinical_trials` table (database.py:16-35).
The generated columns are functions of `data` and carry no independent
state, so they are omitted; `created_at` / `last_updated_at` are the
`DEFAULT NOW()` timestamp columns. -/
structure TrialRow where
  nct_id : String
  data : Study
  conditions : List String
  interventions : List String
  created_at : Nat
  last_updated_at : Nat
  deriving DecidableEq

/-- One element of the `values` list built by `bulk_insert_trials`
(database.py:120-125): `(nct_id, json.dumps(study), conditions_json,
interventions_json)`. -/
structure TrialValue where
  nct_id : String
  data : Study
  conditions : List String
  interventions : List String
  deriving DecidableEq

/-- The whole database state: the `clinical_trials` table plus the single
logical row of `backup_state` (database.py:44-53). -/
structure DBState where
  trials : List TrialRow
  last_page_token : Option String
  last_update_time : Nat
  last_processed_nct : Option String
  deriving DecidableEq

/-- `backup_state` right after `create_tables` on a fresh database:
no trials, `last_page_token` NULL, `last_update_time = NOW()`,
`last_processed_nct` NULL. -/
def initDB (t : Nat) : DBState :=
  ⟨[], none, t, none⟩

/-- `ClinicalTrialsDB.trial_exists` (database.py:187-191): whether a row
with the given `nct_id` is present. -/
def trial_exists (db : DBState) (nct_id : String) : Bool :=
  db.trials.any (fun r => r.nct_id == nct_id)

/-- The per-record skip filter of `bulk_insert_trials` (database.py:104-125):
`some value` exactly when the record has a truthy `nctId`. -/
def mkValue (study : Study) : Option TrialValue :=
  match truthyId study with
  | none => none
  | some id => some ⟨id, study, extract_conditions study, extract_interventions study⟩

/-- One row of the SQL `INSERT ... ON CONFLICT (nct_id) DO UPDATE`
(database.py:130-138): on an existing `nct_id` replace `data`, `conditions`,
`interventions` and set `last_updated_at = NOW()` (leaving `created_at`
untouched); otherwise insert a fresh row whose two timestamp columns both
default to `NOW()`. -/
def upsertRow (trials : List TrialRow) (v : TrialValue) (now : Nat) : List TrialRow :=
  if trials.any (fun r => r.nct_id == v.nct_id) then
    trials.map (fun r =>
      if r.nct_id == v.nct_id then
        { r with data := v.data, conditions := v.conditions,
                 interventions := v.interventions, last_updated_at := now }
      else r)
  else
    trials ++ [⟨v.nct_id, v.data, v.conditions, v.interventions, now, now⟩]

/-- `ClinicalTrialsDB.bulk_insert_trials` (database.py:97-143): skip records
without a truthy identifier, upsert the remaining values keyed by `nct_id`,
then (via `update_last_processed_nct`, database.py:159-167) set
`last_processed_nct` to the last value's identifier and refresh
`last_update_time` to `NOW()`; return `len(values)`.  Empty batch or no
valid values: return 0 and change nothing. -/
def bulk_insert_trials (db : DBState) (studies : List Study) (now : Nat) : DBState × Nat :=
  match studies with
  | [] => (db, 0)
  | _ :: _ =>
    match studies.filterMap mkValue with
    | [] => (db, 0)
    | v :: vs =>
      let values := v :: vs
      let trials2 := values.foldl (fun t w => upsertRow t w now) db.trials
      ({ db with trials := trials2,
                 last_processed_nct := some (vs.getLastD v).nct_id,
                 last_update_time := now },
       values.length)

/-- A response dict from `client.get_studies`: the `studies` key may be
absent (`'studies' not in response`), and `nextPageToken` may be absent. -/
structure ApiResponse where
  studies : Option (List Study)
  nextPageToken : Option String
  deriving DecidableEq

/-- The black-box remote fetch (`api_client.py`): given a page token and an
optional updated-since filter, either a response (`.ok`; the outer `Option`
is `none` for a falsy response object) or an exception escaping the adapter
after its retries (`.error`). -/
abbrev FetchFn := Option String → Option Nat → Except String (Option ApiResponse)

/-- Why a driver loop stopped.  `fuelOut` is the artificial out-of-fuel
case of the embedding and corresponds to no exit path of the code. -/
inductive StopReason where
  | malformed
  | exhaustedEmpty
  | limitReached
  | exhaustedNoToken
  | fetchError (msg : String)
  | fuelOut
  deriving DecidableEq

/-- Result of one `backup_all_trials` run: the returned `total_stored`, the
final database state, the trace of `client.get_studies` calls made (page
token, `min_update_date`) in order, the cumulative `total_stored` value
after each persisted batch, and the exit path taken. -/
structure BackupResult where
  total : Nat
  db : DBState
  calls : List (Option String × Option Nat)
  batchTotals : List Nat
  reason : StopReason
  deriving DecidableEq

/-- `if max_trials and total_stored >= max_trials`
(clinical_trials_backup.py:48): note Python truthiness makes a limit of 0
never trigger. -/
def maxReached (maxT : Option Nat) (total : Nat) : Bool :=
  match maxT with
  | none => false
  | some m => decide (m ≠ 0) && decide (m ≤ total)

/-- The `while True` loop of `backup_all_trials`
(clinical_trials_backup.py:27-62), one constructor case per exit path:
fetch error → persist the token used for the failed attempt and stop;
falsy/keyless response → stop; empty `studies` → stop; otherwise persist
the batch, re-check the limit, then either stop (no truthy next token) or
persist the next token and continue with it. -/
def backupLoop (fetch : FetchFn) (maxT : Option Nat) :
    Nat → DBState → Option String → Nat → Nat → BackupResult
  | 0, db, _tok, total, _now => ⟨total, db, [], [], .fuelOut⟩
  | fuel + 1, db, tok, total, now =>
    match fetch tok none with
    | .error e =>
      ⟨total, ⟨db.trials, tok, db.last_update_time, db.last_processed_nct⟩,
       [(tok, none)], [], .fetchError e⟩
    | .ok none => ⟨total, db, [(tok, none)], [], .malformed⟩
    | .ok (some resp) =>
      match resp.studies with
      | none => ⟨total, db, [(tok, none)], [], .malformed⟩
      | some studies =>
        if studies.isEmpty then
          ⟨total, db, [(tok, none)], [], .exhaustedEmpty⟩
        else
          let p := bulk_insert_trials db studies now
          let total2 := total + p.2
          if maxReached maxT total2 then
            ⟨total2, p.1, [(tok, none)], [total2], .limitReached⟩
          else
            match truthyOpt resp.nextPageToken with
            | none => ⟨total2, p.1, [(tok, none)], [total2], .exhaustedNoToken⟩
            | some nt =>
              let r := backupLoop fetch maxT fuel
                ⟨p.1.trials, some nt, p.1.last_update_time, p.1.last_processed_nct⟩
                (some nt) total2 (now + 1)
              ⟨r.total, r.db, (tok, none) :: r.calls, total2 :: r.batchTotals, r.reason⟩

/-- The resume preamble of `backup_all_trials`
(clinical_trials_backup.py:17-22): only when `resume` is set and the stored
`last_processed_nct` is truthy is the stored page token used as the
starting token. -/
def resumeToken (db : DBState) (resume : Bool) : Option String :=
  if resume then
    match truthyOpt db.last_processed_nct with
    | some _ => db.last_page_token
    | none => none
  else none

/-- `backup_all_trials` (clinical_trials_backup.py:8-67). -/
def backup_all_trials (fetch : FetchFn) (max_trials : Option Nat) (resume : Bool)
    (db : DBState) (fuel : Nat) (now : Nat) : BackupResult :=
  backupLoop fetch max_trials fuel db (resumeToken db resume) 0 now

/-- Result of one `update_trials` run: the returned value
(`total_new + total_updated`), the two counters, the sum of the per-batch
`bulk_insert_trials` return values, the final database state, the call
trace, and the exit path. -/
structure UpdateResult where
  total : Nat
  totalNew : Nat
  totalUpdated : Nat
  storedSum : Nat
  db : DBState
  calls : List (Option String × Option Nat)
  reason : StopReason
  deriving DecidableEq

/-- The classification loop of `update_trials`
(clinical_trials_backup.py:100-108): for each record with a truthy
identifier, count it as new when `trial_exists` is false, else as updated;
runs against the database state before the batch upsert.
Returns `(new, updated)` increments. -/
def classify (db : DBState) (studies : List Study) : Nat × Nat :=
  studies.foldl (fun acc study =>
    match truthyId study with
    | none => acc
    | some id => if trial_exists db id then (acc.1, acc.2 + 1) else (acc.1 + 1, acc.2))
    (0, 0)

/-- The `while True` loop of `update_trials`
(clinical_trials_backup.py:83-123): every fetch passes the fixed
`last_update` watermark; classification precedes the batch upsert; the
checkpoint page token is never written; a falsy next token ends the loop. -/
def updateLoop (fetch : FetchFn) (lastUpdate : Nat) :
    Nat → DBState → Option String → Nat → Nat → Nat → Nat → UpdateResult
  | 0, db, _tok, tN, tU, sS, _now => ⟨tN + tU, tN, tU, sS, db, [], .fuelOut⟩
  | fuel + 1, db, tok, tN, tU, sS, now =>
    match fetch tok (some lastUpdate) with
    | .error _e =>
      ⟨tN + tU, tN, tU, sS, db, [(tok, some lastUpdate)], .fetchError _e⟩
    | .ok none => ⟨tN + tU, tN, tU, sS, db, [(tok, some lastUpdate)], .malformed⟩
    | .ok (some resp) =>
      match resp.studies with
      | none => ⟨tN + tU, tN, tU, sS, db, [(tok, some lastUpdate)], .malformed⟩
      | some studies =>
        if studies.isEmpty then
          ⟨tN + tU, tN, tU, sS, db, [(tok, some lastUpdate)], .exhaustedEmpty⟩
        else
          let c := classify db studies
          let tN2 := tN + c.1
          let tU2 := tU + c.2
          let p := bulk_insert_trials db studies now
          let sS2 := sS + p.2
          match truthyOpt resp.nextPageToken with
          | none =>
            ⟨tN2 + tU2, tN2, tU2, sS2, p.1, [(tok, some lastUpdate)], .exhaustedNoToken⟩
          | some nt =>
            let r := updateLoop fetch lastUpdate fuel p.1 (some nt) tN2 tU2 sS2 (now + 1)
            ⟨r.total, r.totalNew, r.totalUpdated, r.storedSum, r.db,
             (tok, some lastUpdate) :: r.calls, r.reason⟩

/-- `update_trials` (clinical_trials_backup.py:69-131): the watermark is
read from the checkpoint once, before the loop. -/
def update_trials (fetch : FetchFn) (db : DBState) (fuel : Nat) (now : Nat) : UpdateResult :=
  updateLoop fetch db.last_update_time fuel db none 0 0 0 now

/-- A raw study carrying only an identifier, for concrete scenarios. -/
def mkStudy (i : Nat) : Study :=
  ⟨some ⟨some ⟨some ("NCT" ++ toString i)⟩, none, none⟩⟩

/-- The 100-record first page of the simulated source of the spec's
failure scenario. -/
def page1Studies : List Study :=
  (List.range 100).map mkStudy

/-- Simulated source that serves page 1 (100 records, next token "page2")
and fails permanently on any further page. -/
def failPage2Fetch : FetchFn := fun tok _ =>
  match tok with
  | none => .ok (some ⟨some page1Studies, some "page2"⟩)
  | some _ => .error "network error"

/-- Simulated source with two pages of two records each; the second page
carries no next-page token. -/
def twoPageFetch : FetchFn := fun tok _ =>
  match tok with
  | none => .ok (some ⟨some [mkStudy 0, mkStudy 1], some "p2"⟩)
  | some t =>
    if t = "p2" then .ok (some ⟨some [mkStudy 2, mkStudy 3], none⟩)
    else .ok (some ⟨some [], none⟩)

/-- Simulated source whose every fetch fails. -/
def errFetch : FetchFn := fun _ _ => .error "permanent failure"

theorem any_upsertRow (ts : List TrialRow) (v : TrialValue) (now : Nat) (i : String) :
    ((upsertRow ts v now).any fun r => r.nct_id == i) =
      ((ts.any fun r => r.nct_id == i) || (v.nct_id == i)) := by
  unfold upsertRow
  by_cases h : (ts.any fun r => r.nct_id == v.nct_id) = true
  · rw [if_pos h, List.any_map]
    have e2 : ((fun r : TrialRow => r.nct_id == i) ∘ fun r =>
        if r.nct_id == v.nct_id then
          { r with data := v.data, conditions := v.conditions,
                   interventions := v.interventions, last_updated_at := now }
        else r) = fun r : TrialRow => r.nct_id == i := by
      funext r
      simp only [Function.comp]
      split <;> rfl
    rw [e2]
    cases hv : v.nct_id == i with
    | false => simp
    | true =>
      rw [List.any_eq_true] at h
      simp only [Bool.or_true]
      rw [List.any_eq_true]
      obtain ⟨r, hr, hb⟩ := h
      rw [beq_iff_eq] at hb hv
      exact ⟨r, hr, by rw [beq_iff_eq, hb, hv]⟩
  · rw [if_neg h, List.any_append]
    simp

theorem any_upsertAll (vs : List TrialValue) (ts : List TrialRow) (now : Nat) (i : String) :
    ((vs.foldl (fun t w => upsertRow t w now) ts).any fun r => r.nct_id == i) =
      ((ts.any fun r => r.nct_id == i) || (vs.any fun w => w.nct_id == i)) := by
  induction vs generalizing ts with
  | nil => simp
  | cons v vs ih =>
    rw [List.foldl_cons, ih, any_upsertRow, List.any_cons, Bool.or_assoc]

theorem length_filterMap_mkValue (studies : List Study) :
    (studies.filterMap mkValue).length =
      studies.countP (fun s => (truthyId s).isSome) := by
  induction studies with
  | nil => rfl
  | cons s ss ih =>
    rw [List.filterMap_cons, List.countP_cons]
    cases h : truthyId s with
    | none => simp [mkValue, h, ih]
    | some id => simp [mkValue, h, ih]

theorem bulk_insert_count (db : DBState) (studies : List Study) (now : Nat) :
    (bulk_insert_trials db studies now).2 =
      studies.countP (fun s => (truthyId s).isSome) := by
  rw [← length_filterMap_mkValue]
  unfold bulk_insert_trials
  cases studies with
  | nil => rfl
  | cons s ss =>
    cases h : (s :: ss).filterMap mkValue with
    | nil => simp [h]
    | cons v vs => simp [h]

theorem trial_exists_bulk_insert (db : DBState) (studies : List Study) (now : Nat) (i : String) :
    trial_exists (bulk_insert_trials db studies now).1 i =
      (trial_exists db i || ((studies.filterMap mkValue).any fun w => w.nct_id == i)) := by
  unfold bulk_insert_trials trial_exists
  cases studies with
  | nil => simp
  | cons s ss =>
    cases h : (s :: ss).filterMap mkValue with
    | nil => simp [h]
    | cons v vs =>
      simpa using any_upsertAll (v :: vs) db.trials now i

theorem bulk_insert_of_no_valid (db : DBState) (studies : List Study) (now : Nat)
    (h : (studies.countP fun s => (truthyId s).isSome) = 0) :
    bulk_insert_trials db studies now = (db, 0) := by
  have hlen : (studies.filterMap mkValue).length = 0 := by
    rw [length_filterMap_mkValue, h]
  rw [List.length_eq_zero] at hlen
  unfold bulk_insert_trials
  cases studies with
  | nil => rfl
  | cons s ss => rw [hlen]

theorem bulk_insert_page_token (db : DBState) (studies : List Study) (now : Nat) :
    (bulk_insert_trials db studies now).1.last_page_token = db.last_page_token := by
  unfold bulk_insert_trials
  cases studies with
  | nil => rfl
  | cons s ss =>
    cases h : (s :: ss).filterMap mkValue with
    | nil => rfl
    | cons v vs => rfl

theorem map_update_of_absent (ts : List TrialRow) (n : String)
    (g : TrialRow → TrialRow) (h : (ts.any fun r => r.nct_id == n) = false) :
    (ts.map fun r => if r.nct_id == n then g r else r) = ts := by
  induction ts with
  | nil => rfl
  | cons a as ih =>
    rw [List.any_cons, Bool.or_eq_false_iff] at h
    rw [List.map_cons, if_neg (by rw [h.1]; exact Bool.false_ne_true), ih h.2]

theorem filter_of_absent (ts : List TrialRow) (n : String)
    (h : (ts.any fun r => r.nct_id == n) = false) :
    (ts.filter fun r => r.nct_id == n) = [] := by
  induction ts with
  | nil => rfl
  | cons a as ih =>
    rw [List.any_cons, Bool.or_eq_false_iff] at h
    rw [List.filter_cons, if_neg (by rw [h.1]; exact Bool.false_ne_true), ih h.2]

theorem bulk_insert_single (db : DBState) (s : Study) (n : String) (t : Nat)
    (h : truthyId s = some n) :
    bulk_insert_trials db [s] t =
      ({ db with
          trials := upsertRow db.trials
            ⟨n, s, extract_conditions s, extract_interventions s⟩ t,
          last_processed_nct := some n,
          last_update_time := t }, 1) := by
  unfold bulk_insert_trials
  simp [mkValue, h, List.filterMap]

/-- C1: For every record identifier, upserting a record with that identifier
twice via the batch upsert (`bulk_insert_trials`) leaves exactly one stored
row for that identifier: the second upsert replaces `data` (hence every
generated/derived field), `conditions` and `interventions`, and sets
`last_updated_at` to the current time `t2`, while `created_at` keeps the
value `t1` set at the first insert. -/
theorem upsert_twice_single_row (db : DBState) (s1 s2 : Study) (n : String) (t1 t2 : Nat)
    (h1 : truthyId s1 = some n) (h2 : truthyId s2 = some n)
    (h0 : trial_exists db n = false) :
    ((bulk_insert_trials (bulk_insert_trials db [s1] t1).1 [s2] t2).1).trials.filter
        (fun r => r.nct_id == n) =
      [⟨n, s2, extract_conditions s2, extract_interventions s2, t1, t2⟩] := by
  rw [bulk_insert_single db s1 n t1 h1]
  rw [trial_exists] at h0
  have e1 : upsertRow db.trials ⟨n, s1, extract_conditions s1, extract_interventions s1⟩ t1 =
      db.trials ++ [⟨n, s1, extract_conditions s1, extract_interventions s1, t1, t1⟩] := by
    rw [upsertRow, if_neg (by rw [h0]; exact Bool.false_ne_true)]
  rw [e1]
  rw [bulk_insert_single _ s2 n t2 h2]
  have hany : (((db.trials ++
      [(⟨n, s1, extract_conditions s1, extract_interventions s1, t1, t1⟩ : TrialRow)]).any
        fun r => r.nct_id == n)) = true := by
    rw [List.any_append]
    simp
  rw [upsertRow, if_pos hany, List.map_append,
    map_update_of_absent db.trials n _ h0]
  rw [List.filter_append, filter_of_absent db.trials n h0]
  simp

/-- Sample first ingestion of identifier NCT100. -/
def sampleStudyA : Study :=
  ⟨some ⟨some ⟨some "NCT100"⟩, some ⟨["Diabetes"]⟩, none⟩⟩

/-- Sample re-ingestion of identifier NCT100 with a changed payload. -/
def sampleStudyB : Study :=
  ⟨some ⟨some ⟨some "NCT100"⟩, some ⟨[" Asthma  (chronic)"]⟩, none⟩⟩

/-- Witness for C1 at a concrete input. -/
theorem upsert_twice_single_row_witness :
    ((bulk_insert_trials (bulk_insert_trials (initDB 0) [sampleStudyA] 1).1
        [sampleStudyB] 2).1).trials.filter (fun r => r.nct_id == "NCT100") =
      [⟨"NCT100", sampleStudyB, extract_conditions sampleStudyB,
        extract_interventions sampleStudyB, 1, 2⟩] :=
  upsert_twice_single_row (initDB 0) sampleStudyA sampleStudyB "NCT100" 1 2
    (by decide) (by decide) (by decide)

/-- C4: For every batch of N raw records of which K have a valid identifier,
`bulk_insert_trials` returns exactly K; the identifiers present afterwards
are exactly those present before plus the valid identifiers of the batch
(so exactly the K valid records are persisted and skipped records are not);
and a batch with no valid record — including the empty batch — returns 0 and
leaves the database unchanged (the embedding is total, so no exception is
raised). -/
theorem bulk_insert_exact (db : DBState) (studies : List Study) (now : Nat) (i : String) :
    (bulk_insert_trials db studies now).2 =
      studies.countP (fun s => (truthyId s).isSome) ∧
    trial_exists (bulk_insert_trials db studies now).1 i =
      (trial_exists db i || ((studies.filterMap mkValue).any fun w => w.nct_id == i)) ∧
    ((studies.countP fun s => (truthyId s).isSome) = 0 →
      bulk_insert_trials db studies now = (db, 0)) :=
  ⟨bulk_insert_count db studies now,
   trial_exists_bulk_insert db studies now i,
   fun h => bulk_insert_of_no_valid db studies now h⟩

/-- A raw record with no identifier at the nested path. -/
def noIdStudy : Study := ⟨some ⟨none, some ⟨["Flu"]⟩, none⟩⟩

/-- Witness for C4 at a concrete input: a batch of three records of which
two have a valid identifier returns 2, persists exactly the two valid
identifiers, and the no-valid-record batch is a no-op. -/
theorem bulk_insert_exact_witness :
    (bulk_insert_trials (initDB 0) [mkStudy 0, noIdStudy, mkStudy 1] 3).2 =
      [mkStudy 0, noIdStudy, mkStudy 1].countP (fun s => (truthyId s).isSome) ∧
    trial_exists (bulk_insert_trials (initDB 0) [mkStudy 0, noIdStudy, mkStudy 1] 3).1 "NCT1" =
      (trial_exists (initDB 0) "NCT1" ||
        (([mkStudy 0, noIdStudy, mkStudy 1].filterMap mkValue).any fun w => w.nct_id == "NCT1")) ∧
    (([mkStudy 0, noIdStudy, mkStudy 1].countP fun s => (truthyId s).isSome) = 0 →
      bulk_insert_trials (initDB 0) [mkStudy 0, noIdStudy, mkStudy 1] 3 = (initDB 0, 0)) :=
  bulk_insert_exact (initDB 0) [mkStudy 0, noIdStudy, mkStudy 1] 3 "NCT1"

/-- C8: `clean_text` trims surrounding quote and space characters, then
collapses internal whitespace runs to single spaces; the spec's example
`clean_text(' "Diabetes Type 2"  ')` yields `"Diabetes Type 2"`, and both
the empty string and `None` yield the empty string (the embedding is total,
so no exception is raised). -/
theorem clean_text_spec :
    clean_text (some " \"Diabetes Type 2\"  ") = "Diabetes Type 2" ∧
    clean_text (some "  a\t\tb   c ") = "a b c" ∧
    clean_text (some "") = "" ∧
    clean_text none = "" := by
  refine ⟨by decide, by decide, by decide, rfl⟩

/-- C2: With a simulated source that serves page 1 (100 records, next token
"page2") and fails permanently on page 2 (the adapter's retries exhausted,
modelled as the `.error` fetch outcome), `backup_all_trials` catches the
failure (the run ends with the `fetchError` exit path instead of
propagating), persists the page token used for the failed attempt, and
returns 100 — page 1's count; a subsequent resumed run makes its first (and
only) fetch with page 2's token, i.e. retries page 2. -/
theorem backfill_fail_page2_scenario :
    (backup_all_trials failPage2Fetch none false (initDB 0) 5 0).total = 100 ∧
    (backup_all_trials failPage2Fetch none false (initDB 0) 5 0).reason =
      .fetchError "network error" ∧
    (backup_all_trials failPage2Fetch none false (initDB 0) 5 0).db.last_page_token =
      some "page2" ∧
    (backup_all_trials failPage2Fetch none true
        (backup_all_trials failPage2Fetch none false (initDB 0) 5 0).db 5 10).calls =
      [(some "page2", none)] ∧
    (backup_all_trials failPage2Fetch none true
        (backup_all_trials failPage2Fetch none false (initDB 0) 5 0).db 5 10).reason =
      .fetchError "network error" := by
  refine ⟨by decide, by decide, by decide, by decide, by decide⟩

theorem backupLoop_first_call (fetch : FetchFn) (maxT : Option Nat) (fuel : Nat)
    (db : DBState) (tok : Option String) (total now : Nat) :
    (backupLoop fetch maxT (fuel + 1) db tok total now).calls.head? = some (tok, none) := by
  rw [backupLoop]
  cases hf : fetch tok none with
  | error e => rfl
  | ok o =>
    cases o with
    | none => rfl
    | some resp =>
      obtain ⟨os, ont⟩ := resp
      cases os with
      | none => rfl
      | some studies =>
        cases studies with
        | nil => rfl
        | cons s ss =>
          by_cases hm : maxReached maxT (total + (bulk_insert_trials db (s :: ss) now).2) = true
          · simp [hm]
          · cases ht : truthyOpt ont with
            | none => simp [hm, ht]
            | some nt => simp [hm, ht]

/-- Simulated source whose first page is non-empty but contains no record
with a valid identifier, and which carries a next-page token; the second
page is empty. -/
def invalidBatchFetch : FetchFn := fun tok _ =>
  match tok with
  | none => .ok (some ⟨some [noIdStudy], some "p2"⟩)
  | some _ => .ok (some ⟨some [], none⟩)

/-- C3 counterexample: "whenever a continuation token has previously been
persisted in the checkpoint, the first fetch of the resumed run uses that
token" fails on the code.  A non-empty batch whose records all lack a valid
identifier makes `bulk_insert_trials` return 0 without setting
`last_processed_nct` (database.py:127-128), yet the driver still persists
the truthy next-page token (clinical_trials_backup.py:52-54).  The run
below ends with token "p2" persisted and `last_processed_nct` NULL, so the
resume preamble (clinical_trials_backup.py:18-22) skips the token read and
the resumed run's first fetch uses no token instead of the persisted
"p2". -/
theorem backup_resume_skips_token_cex :
    (backup_all_trials invalidBatchFetch none false (initDB 0) 5 0).db.last_page_token =
      some "p2" ∧
    (backup_all_trials invalidBatchFetch none false (initDB 0) 5 0).db.last_processed_nct =
      none ∧
    (backup_all_trials invalidBatchFetch none true
        (backup_all_trials invalidBatchFetch none false (initDB 0) 5 0).db 5 10).calls.head? =
      some (none, none) ∧
    (backup_all_trials invalidBatchFetch none true
        (backup_all_trials invalidBatchFetch none false (initDB 0) 5 0).db 5 10).calls.head? ≠
      some (some "p2", none) := by
  refine ⟨by decide, by decide, by decide, by decide⟩

/-- C3 (amended): whenever the checkpoint carries a persisted continuation
token and its `last_processed_nct` holds a truthy (non-empty) identifier —
the state left by any interrupted run that stored at least one valid
record — `backup_all_trials` invoked with `resume` makes its first fetch
with exactly that token and with no updated-since filter, so pages
processed before the interruption are not fetched again.  (Without a truthy
`last_processed_nct` the resume preamble skips the token read; see the
counterexample.) -/
theorem backup_resume_uses_token (fetch : FetchFn) (maxT : Option Nat) (db : DBState)
    (fuel now : Nat) (t n : String)
    (hn : db.last_processed_nct = some n) (hne : n ≠ "")
    (ht : db.last_page_token = some t) :
    (backup_all_trials fetch maxT true db (fuel + 1) now).calls.head? =
      some (some t, none) := by
  have hr : resumeToken db true = some t := by
    rw [resumeToken, if_pos rfl, hn, truthyOpt]
    rw [if_neg hne, ht]
  rw [backup_all_trials, hr]
  exact backupLoop_first_call fetch maxT fuel db (some t) 0 now

/-- A checkpoint state as left behind by an interrupted backfill run:
a persisted page token together with the last processed identifier. -/
def resumeDB : DBState := ⟨[], some "tok7", 5, some "NCT7"⟩

theorem updateLoop_calls_filter (fetch : FetchFn) (lu : Nat) :
    ∀ (fuel : Nat) (db : DBState) (tok : Option String) (tN tU sS now : Nat)
      (c : Option String × Option Nat),
      c ∈ (updateLoop fetch lu fuel db tok tN tU sS now).calls → c.2 = some lu := by
  intro fuel
  induction fuel with
  | zero =>
    intro db tok tN tU sS now c hc
    rw [updateLoop] at hc
    simp at hc
  | succ fuel ih =>
    intro db tok tN tU sS now c hc
    rw [updateLoop] at hc
    cases hf : fetch tok (some lu) with
    | error e =>
      rw [hf] at hc
      simp at hc
      rw [hc]
    | ok o =>
      cases o with
      | none =>
        rw [hf] at hc
        simp at hc
        rw [hc]
      | some resp =>
        obtain ⟨os, ont⟩ := resp
        rw [hf] at hc
        cases os with
        | none =>
          simp at hc
          rw [hc]
        | some studies =>
          cases studies with
          | nil =>
            simp at hc
            rw [hc]
          | cons s ss =>
            cases ht : truthyOpt ont with
            | none =>
              simp [ht] at hc
              rw [hc]
            | some nt =>
              simp [ht] at hc
              rcases hc with h1 | h2
              · rw [h1]
              · exact ih _ _ _ _ _ _ c h2

/-- C5: Throughout any single `update_trials` run, every fetch passes as its
updated-since filter the `last_update_time` read from the checkpoint at the
start of the run; the per-batch refreshes of the stored `last_update_time`
performed by `bulk_insert_trials` during the run never change the filter of
later fetches of the same run. -/
theorem update_filter_fixed (fetch : FetchFn) (db : DBState) (fuel now : Nat)
    (c : Option String × Option Nat)
    (hc : c ∈ (update_trials fetch db fuel now).calls) :
    c.2 = some db.last_update_time :=
  updateLoop_calls_filter fetch db.last_update_time fuel db none 0 0 0 now c hc

/-- A checkpoint whose stored watermark is 7. -/
def watermarkDB : DBState := ⟨[], some "x", 7, none⟩

/-- Witness for C5 at a concrete input. -/
theorem update_filter_fixed_witness :
    (((none : Option String), (some 7 : Option Nat)) :
        Option String × Option Nat).2 = some watermarkDB.last_update_time :=
  update_filter_fixed errFetch watermarkDB 3 0 (none, some 7) (by decide)

theorem classify_sum (db : DBState) (studies : List Study) :
    (classify db studies).1 + (classify db studies).2 =
      studies.countP (fun s => (truthyId s).isSome) := by
  have h : ∀ (l : List Study) (acc : Nat × Nat),
      ((l.foldl (fun acc study =>
          match truthyId study with
          | none => acc
          | some id =>
            if trial_exists db id then (acc.1, acc.2 + 1) else (acc.1 + 1, acc.2)) acc).1 +
        (l.foldl (fun acc study =>
          match truthyId study with
          | none => acc
          | some id =>
            if trial_exists db id then (acc.1, acc.2 + 1) else (acc.1 + 1, acc.2)) acc).2) =
        acc.1 + acc.2 + l.countP (fun s => (truthyId s).isSome) := by
    intro l
    induction l with
    | nil => intro acc; simp
    | cons s ss ih =>
      intro acc
      rw [List.countP_cons, List.foldl_cons]
      cases hid : truthyId s with
      | none =>
        simp only [hid]
        rw [ih acc]
        simp
      | some id =>
        simp only [hid]
        by_cases he : trial_exists db id = true
        · rw [if_pos he, ih]
          simp
          omega
        · rw [if_neg he, ih]
          simp
          omega
  have h2 := h studies (0, 0)
  simpa [classify] using h2

theorem updateLoop_totals (fetch : FetchFn) (lu : Nat) :
    ∀ (fuel : Nat) (db : DBState) (tok : Option String) (tN tU sS now : Nat),
      (updateLoop fetch lu fuel db tok tN tU sS now).total =
        (updateLoop fetch lu fuel db tok tN tU sS now).totalNew +
          (updateLoop fetch lu fuel db tok tN tU sS now).totalUpdated ∧
      (updateLoop fetch lu fuel db tok tN tU sS now).totalNew +
          (updateLoop fetch lu fuel db tok tN tU sS now).totalUpdated + sS =
        (updateLoop fetch lu fuel db tok tN tU sS now).storedSum + (tN + tU) := by
  intro fuel
  induction fuel with
  | zero =>
    intro db tok tN tU sS now
    rw [updateLoop]
    exact ⟨rfl, by dsimp only; omega⟩
  | succ fuel ih =>
    intro db tok tN tU sS now
    rw [updateLoop]
    cases hf : fetch tok (some lu) with
    | error e => exact ⟨rfl, by dsimp only; omega⟩
    | ok o =>
      cases o with
      | none => exact ⟨rfl, by dsimp only; omega⟩
      | some resp =>
        obtain ⟨os, ont⟩ := resp
        cases os with
        | none => exact ⟨rfl, by dsimp only; omega⟩
        | some studies =>
          cases studies with
          | nil => refine ⟨?_, ?_⟩ <;> simp <;> omega
          | cons s ss =>
            have hcs := classify_sum db (s :: ss)
            have hp := bulk_insert_count db (s :: ss) now
            cases ht : truthyOpt ont with
            | none => refine ⟨?_, ?_⟩ <;> simp [ht] <;> omega
            | some nt =>
              obtain ⟨i1, i2⟩ := ih (bulk_insert_trials db (s :: ss) now).1 (some nt)
                (tN + (classify db (s :: ss)).1) (tU + (classify db (s :: ss)).2)
                (sS + (bulk_insert_trials db (s :: ss) now).2) (now + 1)
              refine ⟨?_, ?_⟩ <;> simp [ht] <;> omega

/-- C6: For every `update_trials` run, each fetched record with a valid
identifier is classified (against the state before the batch upsert) as new
or existing; the run returns `total_new + total_updated`, and that sum
equals the total number of records upserted across the run (the sum of the
per-batch `bulk_insert_trials` return values). -/
theorem update_counts_consistent (fetch : FetchFn) (db : DBState) (fuel now : Nat) :
    (update_trials fetch db fuel now).total =
      (update_trials fetch db fuel now).totalNew +
        (update_trials fetch db fuel now).totalUpdated ∧
    (update_trials fetch db fuel now).totalNew +
        (update_trials fetch db fuel now).totalUpdated =
      (update_trials fetch db fuel now).storedSum := by
  have h := updateLoop_totals fetch db.last_update_time fuel db none 0 0 0 now
  rw [update_trials]
  exact ⟨h.1, by omega⟩

theorem updateLoop_page_token (fetch : FetchFn) (lu : Nat) :
    ∀ (fuel : Nat) (db : DBState) (tok : Option String) (tN tU sS now : Nat),
      (updateLoop fetch lu fuel db tok tN tU sS now).db.last_page_token =
        db.last_page_token := by
  intro fuel
  induction fuel with
  | zero =>
    intro db tok tN tU sS now
    rw [updateLoop]
  | succ fuel ih =>
    intro db tok tN tU sS now
    rw [updateLoop]
    cases hf : fetch tok (some lu) with
    | error e => rfl
    | ok o =>
      cases o with
      | none => rfl
      | some resp =>
        obtain ⟨os, ont⟩ := resp
        cases os with
        | none => rfl
        | some studies =>
          cases studies with
          | nil => rfl
          | cons s ss =>
            cases ht : truthyOpt ont with
            | none =>
              simp [ht, bulk_insert_page_token]
            | some nt =>
              simp [ht, ih (bulk_insert_trials db (s :: ss) now).1 (some nt)
                (tN + (classify db (s :: ss)).1) (tU + (classify db (s :: ss)).2)
                (sS + (bulk_insert_trials db (s :: ss) now).2) (now + 1),
                bulk_insert_page_token]

theorem backupLoop_step_error (fetch : FetchFn) (maxT : Option Nat) (fuel : Nat)
    (db : DBState) (tok : Option String) (total now : Nat) (e : String)
    (hf : fetch tok none = .error e) :
    backupLoop fetch maxT (fuel + 1) db tok total now =
      ⟨total, ⟨db.trials, tok, db.last_update_time, db.last_processed_nct⟩,
       [(tok, none)], [], .fetchError e⟩ := by
  rw [backupLoop, hf]

theorem backupLoop_step_falsy (fetch : FetchFn) (maxT : Option Nat) (fuel : Nat)
    (db : DBState) (tok : Option String) (total now : Nat)
    (hf : fetch tok none = .ok none) :
    backupLoop fetch maxT (fuel + 1) db tok total now =
      ⟨total, db, [(tok, none)], [], .malformed⟩ := by
  rw [backupLoop, hf]

theorem backupLoop_step_nostudies (fetch : FetchFn) (maxT : Option Nat) (fuel : Nat)
    (db : DBState) (tok : Option String) (total now : Nat) (ont : Option String)
    (hf : fetch tok none = .ok (some ⟨none, ont⟩)) :
    backupLoop fetch maxT (fuel + 1) db tok total now =
      ⟨total, db, [(tok, none)], [], .malformed⟩ := by
  rw [backupLoop, hf]

theorem backupLoop_step_empty (fetch : FetchFn) (maxT : Option Nat) (fuel : Nat)
    (db : DBState) (tok : Option String) (total now : Nat) (ont : Option String)
    (hf : fetch tok none = .ok (some ⟨some [], ont⟩)) :
    backupLoop fetch maxT (fuel + 1) db tok total now =
      ⟨total, db, [(tok, none)], [], .exhaustedEmpty⟩ := by
  rw [backupLoop, hf]
  rfl

theorem backupLoop_step_limit (fetch : FetchFn) (maxT : Option Nat) (fuel : Nat)
    (db : DBState) (tok : Option String) (total now : Nat) (ont : Option String)
    (s : Study) (ss : List Study)
    (hf : fetch tok none = .ok (some ⟨some (s :: ss), ont⟩))
    (hm2 : maxReached maxT (total + (bulk_insert_trials db (s :: ss) now).2) = true) :
    backupLoop fetch maxT (fuel + 1) db tok total now =
      ⟨total + (bulk_insert_trials db (s :: ss) now).2,
       (bulk_insert_trials db (s :: ss) now).1, [(tok, none)],
       [total + (bulk_insert_trials db (s :: ss) now).2], .limitReached⟩ := by
  rw [backupLoop, hf]
  simp [hm2]

theorem backupLoop_step_noToken (fetch : FetchFn) (maxT : Option Nat) (fuel : Nat)
    (db : DBState) (tok : Option String) (total now : Nat) (ont : Option String)
    (s : Study) (ss : List Study)
    (hf : fetch tok none = .ok (some ⟨some (s :: ss), ont⟩))
    (hm2 : maxReached maxT (total + (bulk_insert_trials db (s :: ss) now).2) = false)
    (ht : truthyOpt ont = none) :
    backupLoop fetch maxT (fuel + 1) db tok total now =
      ⟨total + (bulk_insert_trials db (s :: ss) now).2,
       (bulk_insert_trials db (s :: ss) now).1, [(tok, none)],
       [total + (bulk_insert_trials db (s :: ss) now).2], .exhaustedNoToken⟩ := by
  rw [backupLoop, hf]
  simp [hm2, ht]

theorem backupLoop_step_continue (fetch : FetchFn) (maxT : Option Nat) (fuel : Nat)
    (db : DBState) (tok : Option String) (total now : Nat) (ont : Option String)
    (s : Study) (ss : List Study) (nt : String)
    (hf : fetch tok none = .ok (some ⟨some (s :: ss), ont⟩))
    (hm2 : maxReached maxT (total + (bulk_insert_trials db (s :: ss) now).2) = false)
    (ht : truthyOpt ont = some nt) :
    backupLoop fetch maxT (fuel + 1) db tok total now =
      ⟨(backupLoop fetch maxT fuel
          ⟨(bulk_insert_trials db (s :: ss) now).1.trials, some nt,
            (bulk_insert_trials db (s :: ss) now).1.last_update_time,
            (bulk_insert_trials db (s :: ss) now).1.last_processed_nct⟩
          (some nt) (total + (bulk_insert_trials db (s :: ss) now).2) (now + 1)).total,
       (backupLoop fetch maxT fuel
          ⟨(bulk_insert_trials db (s :: ss) now).1.trials, some nt,
            (bulk_insert_trials db (s :: ss) now).1.last_update_time,
            (bulk_insert_trials db (s :: ss) now).1.last_processed_nct⟩
          (some nt) (total + (bulk_insert_trials db (s :: ss) now).2) (now + 1)).db,
       (tok, none) ::
         (backupLoop fetch maxT fuel
            ⟨(bulk_insert_trials db (s :: ss) now).1.trials, some nt,
            (bulk_insert_trials db (s :: ss) now).1.last_update_time,
            (bulk_insert_trials db (s :: ss) now).1.last_processed_nct⟩
            (some nt) (total + (bulk_insert_trials db (s :: ss) now).2) (now + 1)).calls,
       (total + (bulk_insert_trials db (s :: ss) now).2) ::
         (backupLoop fetch maxT fuel
            ⟨(bulk_insert_trials db (s :: ss) now).1.trials, some nt,
            (bulk_insert_trials db (s :: ss) now).1.last_update_time,
            (bulk_insert_trials db (s :: ss) now).1.last_processed_nct⟩
            (some nt) (total + (bulk_insert_trials db (s :: ss) now).2) (now + 1)).batchTotals,
       (backupLoop fetch maxT fuel
          ⟨(bulk_insert_trials db (s :: ss) now).1.trials, some nt,
            (bulk_insert_trials db (s :: ss) now).1.last_update_time,
            (bulk_insert_trials db (s :: ss) now).1.last_processed_nct⟩
          (some nt) (total + (bulk_insert_trials db (s :: ss) now).2) (now + 1)).reason⟩ := by
  rw [backupLoop, hf]
  simp [hm2, ht]

theorem backupLoop_limit (fetch : FetchFn) (m : Nat) (hm : 0 < m) :
    ∀ (fuel : Nat) (db : DBState) (tok : Option String) (total now : Nat),
      (backupLoop fetch (some m) fuel db tok total now).reason = .limitReached →
      m ≤ (backupLoop fetch (some m) fuel db tok total now).total ∧
      (backupLoop fetch (some m) fuel db tok total now).batchTotals.getLast? =
        some (backupLoop fetch (some m) fuel db tok total now).total ∧
      (backupLoop fetch (some m) fuel db tok total now).batchTotals.dropLast.all
        (fun t => decide (t < m)) = true := by
  intro fuel
  induction fuel with
  | zero =>
    intro db tok total now h
    rw [backupLoop] at h
    simp at h
  | succ fuel ih =>
    intro db tok total now h
    cases hf : fetch tok none with
    | error e =>
      rw [backupLoop_step_error fetch (some m) fuel db tok total now e hf] at h
      simp at h
    | ok o =>
      cases o with
      | none =>
        rw [backupLoop_step_falsy fetch (some m) fuel db tok total now hf] at h
        simp at h
      | some resp =>
        obtain ⟨os, ont⟩ := resp
        cases os with
        | none =>
          rw [backupLoop_step_nostudies fetch (some m) fuel db tok total now ont hf] at h
          simp at h
        | some studies =>
          cases studies with
          | nil =>
            rw [backupLoop_step_empty fetch (some m) fuel db tok total now ont hf] at h
            simp at h
          | cons s ss =>
            cases hm2 : maxReached (some m) (total + (bulk_insert_trials db (s :: ss) now).2) with
            | true =>
              rw [backupLoop_step_limit fetch (some m) fuel db tok total now ont s ss hf hm2]
              have hle : m ≤ total + (bulk_insert_trials db (s :: ss) now).2 := by
                rw [maxReached, Bool.and_eq_true, decide_eq_true_iff, decide_eq_true_iff] at hm2
                exact hm2.2
              exact ⟨hle, by simp, by simp⟩
            | false =>
              cases ht : truthyOpt ont with
              | none =>
                rw [backupLoop_step_noToken fetch (some m) fuel db tok total now ont s ss
                  hf hm2 ht] at h
                simp at h
              | some nt =>
                rw [backupLoop_step_continue fetch (some m) fuel db tok total now ont s ss nt
                  hf hm2 ht] at h ⊢
                dsimp only at h ⊢
                have hlt : total + (bulk_insert_trials db (s :: ss) now).2 < m := by
                  have hmne : m ≠ 0 := by omega
                  simp [maxReached, hmne] at hm2
                  omega
                obtain ⟨j1, j2, j3⟩ := ih _ _ _ _ h
                cases hbt : (backupLoop fetch (some m) fuel
                    ⟨(bulk_insert_trials db (s :: ss) now).1.trials, some nt,
            (bulk_insert_trials db (s :: ss) now).1.last_update_time,
            (bulk_insert_trials db (s :: ss) now).1.last_processed_nct⟩
                    (some nt) (total + (bulk_insert_trials db (s :: ss) now).2)
                    (now + 1)).batchTotals with
                | nil =>
                  rw [hbt] at j2
                  exact absurd j2 (by simp)
                | cons b bs =>
                  rw [hbt] at j2 j3
                  refine ⟨j1, ?_, ?_⟩
                  · show ((total + (bulk_insert_trials db (s :: ss) now).2) :: b :: bs).getLast? = _
                    rw [List.getLast?_cons_cons]
                    exact j2
                  · show ((total + (bulk_insert_trials db (s :: ss) now).2) :: b :: bs).dropLast.all
                        (fun t => decide (t < m)) = true
                    rw [List.dropLast_cons₂, List.all_cons, Bool.and_eq_true]
                    exact ⟨decide_eq_true hlt, j3⟩

/-- C7 counterexample: the claim "when run_backfill is called with
max_records set, the run stops as soon as the cumulative stored total is
greater than or equal to max_records" fails at `max_records = 0`: with a
two-page source (2 records per page) the cumulative total after page 1 is
2 ≥ 0, yet the run does not stop with the limit — Python's
`if max_trials and ...` treats 0 as unset — and instead continues to
page 2, finishing with total 4 on the no-further-token exit path. -/
theorem backup_limit_zero_cex :
    (backup_all_trials twoPageFetch (some 0) false (initDB 0) 5 0).batchTotals = [2, 4] ∧
    (backup_all_trials twoPageFetch (some 0) false (initDB 0) 5 0).total = 4 ∧
    (backup_all_trials twoPageFetch (some 0) false (initDB 0) 5 0).reason =
      .exhaustedNoToken := by
  refine ⟨by decide, by decide, by decide⟩

/-- C7 (amended to a positive limit): when `backup_all_trials` is called
with `max_records` set to a positive value and stops with the limit
reached, the limit check happened only after the current batch was
persisted: every cumulative total before the final batch was still below
the limit, the returned total is the cumulative total including the final
persisted batch, and it is at least (and may exceed) `max_records`. -/
theorem backup_limit_advisory (fetch : FetchFn) (db : DBState) (resume : Bool)
    (fuel now m : Nat) (hm : 0 < m)
    (hr : (backup_all_trials fetch (some m) resume db fuel now).reason = .limitReached) :
    m ≤ (backup_all_trials fetch (some m) resume db fuel now).total ∧
    (backup_all_trials fetch (some m) resume db fuel now).batchTotals.getLast? =
      some (backup_all_trials fetch (some m) resume db fuel now).total ∧
    (backup_all_trials fetch (some m) resume db fuel now).batchTotals.dropLast.all
      (fun t => decide (t < m)) = true :=
  backupLoop_limit fetch m hm fuel db (resumeToken db resume) 0 now hr

/-- Witness for C7 at a concrete input: limit 1 is exceeded by the first
two-record batch, which is kept, and the run returns 2 > 1. -/
theorem backup_limit_advisory_witness :
    0 < 1 ∧
    (1 ≤ (backup_all_trials twoPageFetch (some 1) false (initDB 0) 5 0).total ∧
      (backup_all_trials twoPageFetch (some 1) false (initDB 0) 5 0).batchTotals.getLast? =
        some (backup_all_trials twoPageFetch (some 1) false (initDB 0) 5 0).total ∧
      (backup_all_trials twoPageFetch (some 1) false (initDB 0) 5 0).batchTotals.dropLast.all
        (fun t => decide (t < 1)) = true) :=
  ⟨by decide,
   backup_limit_advisory twoPageFetch (initDB 0) false 5 0 1 (by decide) (by decide)⟩

theorem backupLoop_clean_token (fetch : FetchFn) (maxT : Option Nat) :
    ∀ (fuel : Nat) (db : DBState) (tok : Option String) (total now : Nat),
      ((backupLoop fetch maxT fuel db tok total now).reason = .exhaustedEmpty ∨
        (backupLoop fetch maxT fuel db tok total now).reason = .exhaustedNoToken ∨
        (backupLoop fetch maxT fuel db tok total now).reason = .malformed) →
      ((backupLoop fetch maxT fuel db tok total now).calls = [(tok, none)] ∧
        (backupLoop fetch maxT fuel db tok total now).db.last_page_token =
          db.last_page_token) ∨
      (2 ≤ (backupLoop fetch maxT fuel db tok total now).calls.length ∧
        (backupLoop fetch maxT fuel db tok total now).calls.getLast? =
          some ((backupLoop fetch maxT fuel db tok total now).db.last_page_token, none) ∧
        (backupLoop fetch maxT fuel db tok total now).db.last_page_token.isSome = true) := by
  intro fuel
  induction fuel with
  | zero =>
    intro db tok total now h
    rw [backupLoop] at h
    simp at h
  | succ fuel ih =>
    intro db tok total now h
    cases hf : fetch tok none with
    | error e =>
      rw [backupLoop_step_error fetch maxT fuel db tok total now e hf] at h
      simp at h
    | ok o =>
      cases o with
      | none =>
        rw [backupLoop_step_falsy fetch maxT fuel db tok total now hf]
        exact Or.inl ⟨rfl, rfl⟩
      | some resp =>
        obtain ⟨os, ont⟩ := resp
        cases os with
        | none =>
          rw [backupLoop_step_nostudies fetch maxT fuel db tok total now ont hf]
          exact Or.inl ⟨rfl, rfl⟩
        | some studies =>
          cases studies with
          | nil =>
            rw [backupLoop_step_empty fetch maxT fuel db tok total now ont hf]
            exact Or.inl ⟨rfl, rfl⟩
          | cons s ss =>
            cases hm2 : maxReached maxT (total + (bulk_insert_trials db (s :: ss) now).2) with
            | true =>
              rw [backupLoop_step_limit fetch maxT fuel db tok total now ont s ss hf hm2] at h
              simp at h
            | false =>
              cases ht : truthyOpt ont with
              | none =>
                rw [backupLoop_step_noToken fetch maxT fuel db tok total now ont s ss hf hm2 ht]
                exact Or.inl ⟨rfl, bulk_insert_page_token db (s :: ss) now⟩
              | some nt =>
                rw [backupLoop_step_continue fetch maxT fuel db tok total now ont s ss nt
                  hf hm2 ht] at h ⊢
                rcases ih _ _ _ _ h with ⟨hc, htk⟩ | ⟨hlen, hlast, hsome⟩
                · have htk2 : (backupLoop fetch maxT fuel
                      ⟨(bulk_insert_trials db (s :: ss) now).1.trials, some nt,
                        (bulk_insert_trials db (s :: ss) now).1.last_update_time,
                        (bulk_insert_trials db (s :: ss) now).1.last_processed_nct⟩
                      (some nt) (total + (bulk_insert_trials db (s :: ss) now).2)
                      (now + 1)).db.last_page_token = some nt := htk
                  exact Or.inr ⟨by simp [hc], by simp [hc, htk2], by simp [htk2]⟩
                · refine Or.inr ⟨by simp; omega, ?_, by simpa using hsome⟩
                  cases hcalls : (backupLoop fetch maxT fuel
                      ⟨(bulk_insert_trials db (s :: ss) now).1.trials, some nt,
                        (bulk_insert_trials db (s :: ss) now).1.last_update_time,
                        (bulk_insert_trials db (s :: ss) now).1.last_processed_nct⟩
                      (some nt) (total + (bulk_insert_trials db (s :: ss) now).2)
                      (now + 1)).calls with
                  | nil =>
                    rw [hcalls] at hlen
                    simp at hlen
                  | cons c cs =>
                    rw [hcalls] at hlast
                    show ((tok, none) :: c :: cs).getLast? = _
                    rw [List.getLast?_cons_cons]
                    exact hlast

/-- C9: When a full backfill stops because the source reports no further
data (empty page, absent/falsy next token) or a malformed response, the
persisted checkpoint page token is never cleared: either the run stopped on
its very first page and the stored token is exactly what it was before the
run, or the run advanced and the stored token equals the (present) page
token used for the run's final fetch — so a subsequent resumed run
re-fetches that final page. -/
theorem backup_exhaustion_keeps_token (fetch : FetchFn) (maxT : Option Nat)
    (resume : Bool) (db : DBState) (fuel now : Nat)
    (h : (backup_all_trials fetch maxT resume db fuel now).reason = .exhaustedEmpty ∨
      (backup_all_trials fetch maxT resume db fuel now).reason = .exhaustedNoToken ∨
      (backup_all_trials fetch maxT resume db fuel now).reason = .malformed) :
    ((backup_all_trials fetch maxT resume db fuel now).calls =
        [(resumeToken db resume, none)] ∧
      (backup_all_trials fetch maxT resume db fuel now).db.last_page_token =
        db.last_page_token) ∨
    (2 ≤ (backup_all_trials fetch maxT resume db fuel now).calls.length ∧
      (backup_all_trials fetch maxT resume db fuel now).calls.getLast? =
        some ((backup_all_trials fetch maxT resume db fuel now).db.last_page_token, none) ∧
      (backup_all_trials fetch maxT resume db fuel now).db.last_page_token.isSome = true) :=
  backupLoop_clean_token fetch maxT fuel db (resumeToken db resume) 0 now h

/-- Witness for C9 at a concrete input: the two-page source exhausts after
its second page (no next token); the stored token is page 2's token "p2",
the token of the final fetched-and-upserted page. -/
theorem backup_exhaustion_keeps_token_witness :
    ((backup_all_trials twoPageFetch none false (initDB 0) 5 0).calls =
        [(resumeToken (initDB 0) false, none)] ∧
      (backup_all_trials twoPageFetch none false (initDB 0) 5 0).db.last_page_token =
        (initDB 0).last_page_token) ∨
    (2 ≤ (backup_all_trials twoPageFetch none false (initDB 0) 5 0).calls.length ∧
      (backup_all_trials twoPageFetch none false (initDB 0) 5 0).calls.getLast? =
        some ((backup_all_trials twoPageFetch none false (initDB 0) 5 0).db.last_page_token,
          none) ∧
      (backup_all_trials twoPageFetch none false (initDB 0) 5 0).db.last_page_token.isSome =
        true) :=
  backup_exhaustion_keeps_token twoPageFetch none false (initDB 0) 5 0 (by decide)

/-- C10: `update_trials` never writes the checkpoint page token: the stored
`last_page_token` after the run equals its value before the run on every
exit path (pagination inside an update run is purely in-memory). -/
theorem update_never_writes_token (fetch : FetchFn) (db : DBState) (fuel now : Nat) :
    (update_trials fetch db fuel now).db.last_page_token = db.last_page_token :=
  updateLoop_page_token fetch db.last_update_time fuel db none 0 0 0 now

/-- Witness for C3 at a concrete input. -/
theorem backup_resume_uses_token_witness :
    (backup_all_trials errFetch none true resumeDB 3 0).calls.head? =
      some (some "tok7", none) :=
  backup_resume_uses_token errFetch none resumeDB 2 0 "tok7" "NCT7" rfl (by decide) rfl
